import Mathlib

/-!
Verification of the advanced-vector container (`src/advanced-vector/vector.h`).

The C++ `Vector<T>` stores a `RawMemory<T>` block of `capacity` raw slots plus a
count `size_` of live elements occupying slots `[0, size)`.  We embed it at the
value level as a structure holding the list of live element values (`elems`,
whose length is `size_`) together with the capacity of the raw block (`cap`).
A second, finer embedding (`VectorRaw`) keeps the whole raw block as a list of
`Option` slots so that object-lifetime errors (destroying an uninitialized
slot, constructing into a live slot) become observable.
-/

namespace AdvancedVector

/-- Value-level state of `Vector<T>`: `elems` are the live elements at logical
positions `[0, size)` (so `elems.length` is `size_`), `cap` is
`data_.Capacity()`. -/
structure Vec (α : Type) where
  elems : List α
  cap : Nat
deriving DecidableEq

/-- The default-constructed vector: `data_ = RawMemory<T>(0)`, `size_ = 0`. -/
def emptyVec (α : Type) : Vec α := { elems := [], cap := 0 }

/-- New capacity chosen by every growth branch: `size_ == 0 ? 1 : size_ * 2`
(evaluated when `size_ == Capacity()`). -/
def growCap (size : Nat) : Nat := if size = 0 then 1 else size * 2

/-- Value-level effect of `MoveOrCopyToMemory` / the inline
`uninitialized_move_n` / `uninitialized_copy_n` transfer: whether the live
elements are moved or copied into the new block, the constructed values in the
new storage equal the source values in order. -/
def moveOrCopyVals (xs : List α) : List α := xs

/-- `Vector::Reserve` (vector.h lines 185-199) at the value level:
early-return when `new_capacity <= Capacity()`, otherwise transfer all live
elements into a fresh block of exactly `new_capacity` slots. -/
def Reserve (v : Vec α) (new_capacity : Nat) : Vec α :=
  if new_capacity ≤ v.cap then v
  else { elems := moveOrCopyVals v.elems, cap := new_capacity }

/-- `Vector::PushBack(const T&)` (lines 241-258): on `Capacity() == size_`
grow to `growCap size_`, construct the new element in the last slot of the new
block and transfer the old elements; otherwise construct in place. -/
def PushBack (v : Vec α) (value : α) : Vec α :=
  if v.cap = v.elems.length then
    { elems := moveOrCopyVals v.elems ++ [value], cap := growCap v.elems.length }
  else
    { elems := v.elems ++ [value], cap := v.cap }

/-- `Vector::EmplaceBack` (lines 260-279): same state change as `PushBack`
with the element constructed from the forwarded arguments (here: its value),
returning a reference to the new last element `data_[size_ - 1]`. -/
def EmplaceBack (v : Vec α) (value : α) : Vec α × α :=
  (if v.cap = v.elems.length then
    { elems := moveOrCopyVals v.elems ++ [value], cap := growCap v.elems.length }
  else
    { elems := v.elems ++ [value], cap := v.cap }, value)

/-- `Vector::PopBack` (lines 281-287): destroy `data_[size_ - 1]` and
decrement `size_`; no-op on an empty vector. -/
def PopBack (v : Vec α) : Vec α :=
  if v.elems.length = 0 then v
  else { elems := v.elems.dropLast, cap := v.cap }

/-- A segment overwrite on a list: writes `seg` over positions
`[dest, dest + seg.length)` of `l`, leaving everything else unchanged. -/
def writeSeg (l : List α) (dest : Nat) (seg : List α) : List α :=
  l.take dest ++ seg ++ l.drop (dest + seg.length)

/-- `std::move(first, last, dest)` over the live slots of the vector, with
indices for iterators.  The algorithm requires `[first, last)` to be a valid
range inside the storage; an invalid range (in particular `first > last`) is
undefined behavior, modelled as `none`. -/
def stdMove (l : List α) (first last dest : Nat) : Option (List α) :=
  if first ≤ last ∧ last ≤ l.length ∧ dest + (last - first) ≤ l.length then
    some (writeSeg l dest ((l.drop first).take (last - first)))
  else none

/-- `std::move_backward(first, last, dlast)`: moves `[first, last)` so that it
ends at `dlast`, assigning backwards.  An invalid range is undefined behavior,
modelled as `none`. -/
def stdMoveBackward (l : List α) (first last dlast : Nat) : Option (List α) :=
  if first ≤ last ∧ last ≤ l.length ∧ last - first ≤ dlast ∧ dlast ≤ l.length then
    some (writeSeg l (dlast - (last - first)) ((l.drop first).take (last - first)))
  else none

/-- `Vector::Erase` (lines 316-321): `std::move(begin() + index + 1, end(),
begin() + index)` closes the gap, then `PopBack()` destroys the vacated last
slot; returns `begin() + index`.  There is no assertion on `pos`. -/
def Erase (v : Vec α) (index : Nat) : Option (Vec α × Nat) :=
  (stdMove v.elems (index + 1) v.elems.length index).map
    (fun l => (PopBack { elems := l, cap := v.cap }, index))

/-- The shared no-growth insertion path of `Insert` (lines 335-338):
`new(data_ + size_) T(std::move(data_[size_ - 1]))` (reads out of bounds when
`size_ == 0`, modelled as `none`), then
`std::move_backward(begin() + index, end() - 1, end())` (an invalid range when
`index = size_`, modelled as `none`), then `data_[index] = std::move(new_item)`. -/
def shiftInsertInPlace (elems : List α) (index : Nat) (new_item : α) : Option (List α) :=
  match elems.getLast? with
  | none => none
  | some last =>
    match stdMoveBackward (elems ++ [last]) index (elems.length - 1) elems.length with
    | none => none
    | some l => some (l.set index new_item)

/-- `Vector::Insert(const_iterator, const T&)` (lines 323-342).  The entry
assertion restricts `pos` to `[cbegin(), cend()]` (`none` outside).  On growth,
the new element is constructed at slot `index` of the new block and the old
elements before and after `index` are transferred around it.  Without growth
the shared shift path runs unconditionally — there is no `pos == cend()`
special case in `Insert`. -/
def Insert (v : Vec α) (index : Nat) (value : α) : Option (Vec α × Nat) :=
  if index ≤ v.elems.length then
    if v.cap = v.elems.length then
      some ({ elems := moveOrCopyVals (v.elems.take index) ++ [value] ++
                moveOrCopyVals (v.elems.drop index),
              cap := growCap v.elems.length }, index)
    else
      match shiftInsertInPlace v.elems index value with
      | none => none
      | some l => some ({ elems := l, cap := v.cap }, index)
  else none

/-- `Vector::Emplace` (lines 289-314).  Same as `Insert` except that the
element is built from the forwarded arguments (here: its value) and the
no-growth branch checks `pos == cend()` first, constructing directly into the
next free slot in that case. -/
def Emplace (v : Vec α) (index : Nat) (value : α) : Option (Vec α × Nat) :=
  if index ≤ v.elems.length then
    if v.cap = v.elems.length then
      some ({ elems := moveOrCopyVals (v.elems.take index) ++ [value] ++
                moveOrCopyVals (v.elems.drop index),
              cap := growCap v.elems.length }, index)
    else if index = v.elems.length then
      some ({ elems := v.elems ++ [value], cap := v.cap }, index)
    else
      match shiftInsertInPlace v.elems index value with
      | none => none
      | some l => some ({ elems := l, cap := v.cap }, index)
  else none

/-- Fallible copy of a sequence, modelling `std::uninitialized_copy_n` with a
copy constructor `copyFn` that may throw: elements are copied front to back;
on a throw the already-constructed copies are destroyed and the exception
propagates, so no value survives. -/
def copySeqExc (copyFn : α → Except Unit α) : List α → Except Unit (List α)
  | [] => Except.ok []
  | x :: xs =>
    match copyFn x with
    | Except.error e => Except.error e
    | Except.ok y =>
      match copySeqExc copyFn xs with
      | Except.error e => Except.error e
      | Except.ok ys => Except.ok (y :: ys)

/-- The transfer of live elements into new storage with a fallible copy
constructor: `uninitialized_move_n` when `is_nothrow_move_constructible_v<T>
|| !is_copy_constructible_v<T>`, otherwise `uninitialized_copy_n`.  Moves do
not change values at this level. -/
def transferExc (nothrowMove copyCtor : Bool) (copyFn : α → Except Unit α)
    (xs : List α) : Except Unit (List α) :=
  if nothrowMove || !copyCtor then Except.ok xs
  else copySeqExc copyFn xs

/-- Runs a fallible sub-step of a member function.  If the step throws, the
exception escapes the member function before any member of the vector has been
assigned, so the caller observes the object still in state `v`. -/
def tryStep (v : Vec α) (a : Except Unit β) (k : β → Except (Vec α) γ) :
    Except (Vec α) γ :=
  match a with
  | Except.error _ => Except.error v
  | Except.ok _b => k _b

/-- `Vector::Reserve` with fallible allocation (`alloc`) and fallible element
copy (`copyFn`), following the source order: allocate the new block, transfer
the live elements, and only then destroy the old elements and assign
`data_ = std::move(new_data)`.  On a throw the result carries the state the
caller observes. -/
def ReserveExc (alloc : Nat → Except Unit Unit) (copyFn : α → Except Unit α)
    (nothrowMove copyCtor : Bool) (v : Vec α) (new_capacity : Nat) :
    Except (Vec α) (Vec α) :=
  if new_capacity ≤ v.cap then Except.ok v
  else
    tryStep v (alloc new_capacity) fun _ =>
    tryStep v (transferExc nothrowMove copyCtor copyFn v.elems) fun ys =>
    Except.ok { elems := ys, cap := new_capacity }

/-- `Vector::PushBack(const T&)` with fallible allocation and copies.  In the
growth branch the new element is copy-constructed into the last slot of the
new block before the old elements are transferred; all fallible steps precede
the member assignments. -/
def PushBackExc (alloc : Nat → Except Unit Unit) (copyFn : α → Except Unit α)
    (nothrowMove copyCtor : Bool) (v : Vec α) (value : α) :
    Except (Vec α) (Vec α) :=
  if v.cap = v.elems.length then
    tryStep v (alloc (growCap v.elems.length)) fun _ =>
    tryStep v (copyFn value) fun y =>
    tryStep v (transferExc nothrowMove copyCtor copyFn v.elems) fun ys =>
    Except.ok { elems := ys ++ [y], cap := growCap v.elems.length }
  else
    tryStep v (copyFn value) fun y =>
    Except.ok { elems := v.elems ++ [y], cap := v.cap }

/-- `Vector::EmplaceBack` with fallible allocation, element construction
(`mk`, the `T(std::forward<Args>(args)...)` call) and copies. -/
def EmplaceBackExc (alloc : Nat → Except Unit Unit) (copyFn : α → Except Unit α)
    (mk : Except Unit α) (nothrowMove copyCtor : Bool) (v : Vec α) :
    Except (Vec α) (Vec α) :=
  if v.cap = v.elems.length then
    tryStep v (alloc (growCap v.elems.length)) fun _ =>
    tryStep v mk fun y =>
    tryStep v (transferExc nothrowMove copyCtor copyFn v.elems) fun ys =>
    Except.ok { elems := ys ++ [y], cap := growCap v.elems.length }
  else
    tryStep v mk fun y =>
    Except.ok { elems := v.elems ++ [y], cap := v.cap }

/-- `Vector::Insert(const_iterator, const T&)` with fallible allocation and
copies.  In the growth branch the new element is copied into slot `index` of
the new block, then the old prefix and suffix are transferred around it.  In
the no-growth branch only the `T new_item(value)` copy can throw at this
level; the subsequent shift is by moves (value-preserving here), with its
out-of-range accesses surfaced as `none`. -/
def InsertExc (alloc : Nat → Except Unit Unit) (copyFn : α → Except Unit α)
    (nothrowMove copyCtor : Bool) (v : Vec α) (index : Nat) (value : α) :
    Except (Vec α) (Option (Vec α)) :=
  if v.cap = v.elems.length then
    tryStep v (alloc (growCap v.elems.length)) fun _ =>
    tryStep v (copyFn value) fun y =>
    tryStep v (transferExc nothrowMove copyCtor copyFn (v.elems.take index)) fun pre =>
    tryStep v (transferExc nothrowMove copyCtor copyFn (v.elems.drop index)) fun suf =>
    Except.ok (some { elems := pre ++ [y] ++ suf, cap := growCap v.elems.length })
  else
    tryStep v (copyFn value) fun ni =>
    Except.ok ((shiftInsertInPlace v.elems index ni).map
      (fun l => { elems := l, cap := v.cap }))

/-- `Vector::Emplace` with fallible allocation, element construction and
copies, mirroring `InsertExc` but with the `pos == cend()` special case in the
no-growth branch. -/
def EmplaceExc (alloc : Nat → Except Unit Unit) (copyFn : α → Except Unit α)
    (mk : Except Unit α) (nothrowMove copyCtor : Bool) (v : Vec α)
    (index : Nat) : Except (Vec α) (Option (Vec α)) :=
  if v.cap = v.elems.length then
    tryStep v (alloc (growCap v.elems.length)) fun _ =>
    tryStep v mk fun y =>
    tryStep v (transferExc nothrowMove copyCtor copyFn (v.elems.take index)) fun pre =>
    tryStep v (transferExc nothrowMove copyCtor copyFn (v.elems.drop index)) fun suf =>
    Except.ok (some { elems := pre ++ [y] ++ suf, cap := growCap v.elems.length })
  else if index = v.elems.length then
    tryStep v mk fun y =>
    Except.ok (some { elems := v.elems ++ [y], cap := v.cap })
  else
    tryStep v mk fun ni =>
    Except.ok ((shiftInsertInPlace v.elems index ni).map
      (fun l => { elems := l, cap := v.cap }))

/-- `Vector::Vector(Vector&&)` (lines 103-105): steals the other's buffer
(leaving it null with capacity 0 via `RawMemory`'s move constructor) and
exchanges the other's `size_` with 0.  Result: (new object, source after). -/
def moveCtor (other : Vec α) : Vec α × Vec α :=
  ({ elems := other.elems, cap := other.cap }, { elems := [], cap := 0 })

/-- `Vector::operator=(Vector&&)` (lines 135-140) for distinct objects:
`Swap(rhs)` exchanges buffers and sizes.  Result: (assigned-to object, source
after). -/
def moveAssign (lhs rhs : Vec α) : Vec α × Vec α :=
  ({ elems := rhs.elems, cap := rhs.cap }, { elems := lhs.elems, cap := lhs.cap })

/-! ### Transfer-mode selection, one definition per growth path

Each growth path of the source contains its own `if constexpr
(std::is_nothrow_move_constructible_v<T> || !std::is_copy_constructible_v<T>)`
branch selecting between `uninitialized_move_n` and `uninitialized_copy_n`;
`Insert` and `Emplace` delegate to the private helper `MoveOrCopyToMemory`. -/

/-- Whether existing elements are relocated by move or by copy construction. -/
inductive TransferKind where
  | move : TransferKind
  | copy : TransferKind
deriving DecidableEq

/-- Relocation choice written inline in `Vector::Reserve` (lines 191-196). -/
def reserveTransferKind (nothrowMove copyCtor : Bool) : TransferKind :=
  if nothrowMove || !copyCtor then TransferKind.move else TransferKind.copy

/-- Relocation choice written inline in `Vector::PushBack(T&&)` (lines 226-231). -/
def pushBackRvalueTransferKind (nothrowMove copyCtor : Bool) : TransferKind :=
  if nothrowMove || !copyCtor then TransferKind.move else TransferKind.copy

/-- Relocation choice written inline in `Vector::PushBack(const T&)`
(lines 245-250). -/
def pushBackLvalueTransferKind (nothrowMove copyCtor : Bool) : TransferKind :=
  if nothrowMove || !copyCtor then TransferKind.move else TransferKind.copy

/-- Relocation choice written inline in `Vector::EmplaceBack` (lines 265-270). -/
def emplaceBackTransferKind (nothrowMove copyCtor : Bool) : TransferKind :=
  if nothrowMove || !copyCtor then TransferKind.move else TransferKind.copy

/-- Relocation choice of the helper `Vector::MoveOrCopyToMemory`
(lines 369-376), the single transfer routine used by `Insert` (both overloads)
and `Emplace`. -/
def moveOrCopyToMemoryTransferKind (nothrowMove copyCtor : Bool) : TransferKind :=
  if nothrowMove || !copyCtor then TransferKind.move else TransferKind.copy

/-- Modelled from the spec: relocate by move exactly when "T's move
constructor cannot throw, or ... T is not copyable", otherwise by copy. -/
def specTransferPolicy (nothrowMove copyCtor : Bool) : TransferKind :=
  if nothrowMove = true ∨ copyCtor = false then TransferKind.move
  else TransferKind.copy

/-! ### Slot-level model

`VectorRaw` keeps the whole raw block: `slots.length` is the capacity, a slot
is `some x` when a live object with value `x` occupies it and `none` when it
is uninitialized.  Reading, assigning or destroying require a live object;
placement-construction requires an uninitialized slot.  A violation is
undefined behavior, modelled as `none`. -/

/-- Slot-level state of `Vector<T>`: the raw block plus `size_`. -/
structure VectorRaw (α : Type) where
  slots : List (Option α)
  size : Nat
deriving DecidableEq

/-- Reads the live object at slot `i`; UB if the slot is uninitialized or out
of range. -/
def readLive (slots : List (Option α)) (i : Nat) : Option α :=
  match slots.get? i with
  | some (some x) => some x
  | _ => none

/-- Copy-assigns over the live object at slot `i`; UB if the slot is
uninitialized or out of range. -/
def assignAt (slots : List (Option α)) (i : Nat) (x : α) : Option (List (Option α)) :=
  match slots.get? i with
  | some (some _) => some (slots.set i (some x))
  | _ => none

/-- Placement-constructs into the uninitialized slot `i`; UB if the slot
already holds a live object or is out of range. -/
def constructAt (slots : List (Option α)) (i : Nat) (x : α) : Option (List (Option α)) :=
  match slots.get? i with
  | some none => some (slots.set i (some x))
  | _ => none

/-- Runs the destructor of the live object at slot `i`; UB if the slot is
uninitialized or out of range. -/
def destroyAt (slots : List (Option α)) (i : Nat) : Option (List (Option α)) :=
  match slots.get? i with
  | some (some _) => some (slots.set i none)
  | _ => none

/-- Destroys `count` objects starting at slot `start` (`std::destroy_n` /
`std::ranges::destroy` over that range). -/
def destroySeg (slots : List (Option α)) (start : Nat) : Nat → Option (List (Option α))
  | 0 => some slots
  | Nat.succ n =>
    match destroyAt slots start with
    | none => none
    | some s => destroySeg s (start + 1) n

/-- `std::copy_n(src + srcFrom, count, dst + dstFrom)`: per-element copy
assignment from live source slots onto live destination slots. -/
def copyAssignSeg (src : List (Option α)) (srcFrom : Nat) (dst : List (Option α))
    (dstFrom : Nat) : Nat → Option (List (Option α))
  | 0 => some dst
  | Nat.succ n =>
    match readLive src srcFrom with
    | none => none
    | some x =>
      match assignAt dst dstFrom x with
      | none => none
      | some d => copyAssignSeg src (srcFrom + 1) d (dstFrom + 1) n

/-- `std::uninitialized_copy_n(src + srcFrom, count, dst + dstFrom)`:
per-element copy construction from live source slots into uninitialized
destination slots. -/
def copyConstructSeg (src : List (Option α)) (srcFrom : Nat) (dst : List (Option α))
    (dstFrom : Nat) : Nat → Option (List (Option α))
  | 0 => some dst
  | Nat.succ n =>
    match readLive src srcFrom with
    | none => none
    | some x =>
      match constructAt dst dstFrom x with
      | none => none
      | some d => copyConstructSeg src (srcFrom + 1) d (dstFrom + 1) n

/-- `Vector::operator=(const Vector&)` (lines 111-133) for distinct objects,
at the slot level.  When `rhs.size_ > data_.Capacity()`: build a fresh block
of `rhs.size_` slots, copy-construct all of `rhs`, destroy the old live
elements and take over the new block.  Otherwise: `std::copy_n` over the
common prefix of length `min(size_, rhs.size_)`; then, if the source is
smaller, `std::ranges::destroy(data_ + rhs.size_, data_ + Capacity())` — note
the upper bound `Capacity()`, taken verbatim from the source; if the source is
larger, copy-construct the extra suffix.  Finally `size_ = rhs.size_`. -/
def copyAssignment (lhs rhs : VectorRaw α) : Option (VectorRaw α) :=
  if rhs.size > lhs.slots.length then
    match copyConstructSeg rhs.slots 0 (List.replicate rhs.size none) 0 rhs.size with
    | none => none
    | some new_data =>
      match destroySeg lhs.slots 0 lhs.size with
      | none => none
      | some _ => some { slots := new_data, size := rhs.size }
  else
    match copyAssignSeg rhs.slots 0 lhs.slots 0 (min lhs.size rhs.size) with
    | none => none
    | some s1 =>
      if rhs.size < lhs.size then
        match destroySeg s1 rhs.size (lhs.slots.length - rhs.size) with
        | none => none
        | some s2 => some { slots := s2, size := rhs.size }
      else if rhs.size > lhs.size then
        match copyConstructSeg rhs.slots lhs.size s1 lhs.size (rhs.size - lhs.size) with
        | none => none
        | some s2 => some { slots := s2, size := rhs.size }
      else some { slots := s1, size := rhs.size }

/-! ### Concrete values used by witnesses -/

/-- A full vector of two elements (`size_ == Capacity() == 2`). -/
def vOneTwo : Vec Nat := { elems := [1, 2], cap := 2 }

/-- A vector of one element with spare capacity. -/
def vOneOne : Vec Nat := { elems := [1], cap := 1 }

/-- An allocator that always succeeds. -/
def allocOk : Nat → Except Unit Unit := fun _ => Except.ok ()

/-- A copy constructor that throws exactly when copying the value `2`. -/
def copyFailAt2 : Nat → Except Unit Nat := fun a =>
  if a = 2 then Except.error () else Except.ok a

/-- Capacities observed while pushing the integers 1..5 one at a time into a
default-constructed vector. -/
def pushCaps : List Nat :=
  (List.scanl PushBack (emptyVec Nat) [1, 2, 3, 4, 5]).map Vec.cap

/-! ### Theorems -/

/-- If a fallible sub-step throws, the member function rethrows with the
object unchanged, provided the continuation also does. -/
theorem tryStep_error_eq {α β γ : Type} {v s : Vec α} {a : Except Unit β}
    {k : β → Except (Vec α) γ} (hk : ∀ b, k b = Except.error s → s = v) :
    tryStep v a k = Except.error s → s = v := by
  cases a with
  | error e =>
    intro h
    simp only [tryStep] at h
    injection h with h
    exact h.symm
  | ok b =>
    intro h
    simp only [tryStep] at h
    exact hk b h

/-- C1: for a copy-constructible element type whose move constructor may throw
(`nothrowMove = false`, `copyCtor = true`), if allocation or any element
copy/construction throws during `Reserve`, `PushBack`, `EmplaceBack`, `Insert`
or `Emplace` (the latter two in their growth-triggering case,
`size_ == Capacity()`), the vector observed by the caller is exactly the
pre-call vector: same size, same capacity, same element values. -/
theorem growth_ops_strong_exception_safety (α : Type)
    (alloc : Nat → Except Unit Unit) (copyFn : α → Except Unit α)
    (mk : Except Unit α) (v : Vec α) (value : α) (n index : Nat) :
    (∀ s, ReserveExc alloc copyFn false true v n = Except.error s → s = v) ∧
    (∀ s, PushBackExc alloc copyFn false true v value = Except.error s → s = v) ∧
    (∀ s, EmplaceBackExc alloc copyFn mk false true v = Except.error s → s = v) ∧
    (v.cap = v.elems.length →
      ∀ s, InsertExc alloc copyFn false true v index value = Except.error s → s = v) ∧
    (v.cap = v.elems.length →
      ∀ s, EmplaceExc alloc copyFn mk false true v index = Except.error s → s = v) := by
  refine ⟨?_, ?_, ?_, ?_, ?_⟩
  · intro s
    unfold ReserveExc
    split
    · exact fun h => Except.noConfusion h
    · exact tryStep_error_eq fun _ => tryStep_error_eq fun ys h => Except.noConfusion h
  · intro s
    unfold PushBackExc
    split
    · exact tryStep_error_eq fun _ => tryStep_error_eq fun y =>
        tryStep_error_eq fun ys h => Except.noConfusion h
    · exact tryStep_error_eq fun y h => Except.noConfusion h
  · intro s
    unfold EmplaceBackExc
    split
    · exact tryStep_error_eq fun _ => tryStep_error_eq fun y =>
        tryStep_error_eq fun ys h => Except.noConfusion h
    · exact tryStep_error_eq fun y h => Except.noConfusion h
  · intro hgrow s
    unfold InsertExc
    rw [if_pos hgrow]
    exact tryStep_error_eq fun _ => tryStep_error_eq fun y =>
      tryStep_error_eq fun pre => tryStep_error_eq fun suf h => Except.noConfusion h
  · intro hgrow s
    unfold EmplaceExc
    rw [if_pos hgrow]
    exact tryStep_error_eq fun _ => tryStep_error_eq fun y =>
      tryStep_error_eq fun pre => tryStep_error_eq fun suf h => Except.noConfusion h

/-- Witness for C1: on the full vector `[1, 2]`, with a copy constructor that
throws on the value `2`, every one of the five growth operations throws and
the caller observes the vector unchanged. -/
theorem growth_ops_strong_exception_safety_witness :
    (ReserveExc allocOk copyFailAt2 false true vOneTwo 5 = Except.error vOneTwo ∧
      vOneTwo = vOneTwo) ∧
    (PushBackExc allocOk copyFailAt2 false true vOneTwo 7 = Except.error vOneTwo ∧
      vOneTwo = vOneTwo) ∧
    (EmplaceBackExc allocOk copyFailAt2 (Except.ok 9) false true vOneTwo = Except.error vOneTwo ∧
      vOneTwo = vOneTwo) ∧
    (vOneTwo.cap = vOneTwo.elems.length ∧
      InsertExc allocOk copyFailAt2 false true vOneTwo 1 7 = Except.error vOneTwo ∧
      vOneTwo = vOneTwo) ∧
    (vOneTwo.cap = vOneTwo.elems.length ∧
      EmplaceExc allocOk copyFailAt2 (Except.ok 9) false true vOneTwo 1 = Except.error vOneTwo ∧
      vOneTwo = vOneTwo) := by
  have h := growth_ops_strong_exception_safety Nat allocOk copyFailAt2
    (Except.ok 9) vOneTwo 7 5 1
  exact ⟨⟨rfl, h.1 vOneTwo rfl⟩,
    ⟨rfl, h.2.1 vOneTwo rfl⟩,
    ⟨rfl, h.2.2.1 vOneTwo rfl⟩,
    ⟨rfl, rfl, h.2.2.2.1 rfl vOneTwo rfl⟩,
    ⟨rfl, rfl, h.2.2.2.2 rfl vOneTwo rfl⟩⟩

/-- C2: on the vector `[1]` with capacity 2 (no growth required), inserting at
`pos == cend()` (index 1) runs the unconditional shift path of `Insert`, whose
`std::move_backward(begin() + 1, end() - 1, end())` call receives the invalid
range `[end(), end() - 1)` — undefined behavior instead of the specified
append; `Emplace` at the same position takes its `pos == cend()` branch and
correctly produces `[1, 9]`. -/
theorem insert_at_end_without_growth_is_ub :
    Insert { elems := [(1:Nat)], cap := 2 } 1 9 = none ∧
    Emplace { elems := [(1:Nat)], cap := 2 } 1 9 =
      some ({ elems := [1, 9], cap := 2 }, 1) := by decide

/-- C3: all five growth paths select the relocation mechanism with one and the
same rule, the spec's policy "move exactly when T's move constructor cannot
throw or T is not copy-constructible, otherwise copy". -/
theorem transfer_policy_identical_in_all_growth_paths :
    ∀ nothrowMove copyCtor : Bool,
      reserveTransferKind nothrowMove copyCtor =
        specTransferPolicy nothrowMove copyCtor ∧
      pushBackRvalueTransferKind nothrowMove copyCtor =
        specTransferPolicy nothrowMove copyCtor ∧
      pushBackLvalueTransferKind nothrowMove copyCtor =
        specTransferPolicy nothrowMove copyCtor ∧
      emplaceBackTransferKind nothrowMove copyCtor =
        specTransferPolicy nothrowMove copyCtor ∧
      moveOrCopyToMemoryTransferKind nothrowMove copyCtor =
        specTransferPolicy nothrowMove copyCtor := by decide

/-- C4 counterexample: move-assigning the two-element vector `[1, 2]` into the
destination `[10]` swaps the two objects, so the source ends with size 1, not
size 0 as the claim states. -/
theorem move_assign_leaves_source_nonempty :
    ¬ ((moveAssign { elems := [(10:Nat)], cap := 1 }
        { elems := [1, 2], cap := 2 }).2.elems.length = 0) := by decide

/-- C4 (amended): move-construction gives the destination the source's
elements and capacity and leaves the source empty (size 0, capacity 0);
move-assignment gives the destination the source's elements and capacity but
swaps, so the source receives the destination's previous elements and
capacity — its size is 0 only when the destination was empty. -/
theorem move_ctor_and_move_assign_spec (α : Type) (dst src : Vec α) :
    (moveCtor src).1.elems = src.elems ∧ (moveCtor src).1.cap = src.cap ∧
    (moveCtor src).2.elems = [] ∧ (moveCtor src).2.cap = 0 ∧
    (moveAssign dst src).1.elems = src.elems ∧
    (moveAssign dst src).1.cap = src.cap ∧
    (moveAssign dst src).2.elems = dst.elems ∧
    (moveAssign dst src).2.cap = dst.cap :=
  ⟨rfl, rfl, rfl, rfl, rfl, rfl, rfl, rfl⟩

/-- C5: copy-assigning the one-element vector `[7]` into a vector of size 2
with capacity 4 reuses the storage, copy-assigns the prefix, and then runs
`std::ranges::destroy(data_ + 1, data_ + Capacity())`: after destroying the
live element at slot 1 it calls the destructor on the uninitialized slot 2 —
undefined behavior, where the claim requires destruction of exactly the live
tail `[1, 2)`. -/
theorem copy_assignment_destroys_beyond_live_tail :
    copyAssignment { slots := [some 1, some 2, none, none], size := 2 }
      { slots := [some (7:Nat)], size := 1 } = none := by decide

/-- C6: `Reserve(n)` with `n ≤ Capacity()` leaves the vector unchanged; with
`n > Capacity()` the new capacity is exactly `n` and the live elements (hence
also the size) are unchanged. -/
theorem reserve_capacity_spec (α : Type) (v : Vec α) (n : Nat) :
    (n ≤ v.cap → Reserve v n = v) ∧
    (v.cap < n → (Reserve v n).cap = n ∧ (Reserve v n).elems = v.elems) := by
  constructor
  · intro h
    unfold Reserve
    rw [if_pos h]
  · intro h
    unfold Reserve
    rw [if_neg (by omega)]
    exact ⟨rfl, rfl⟩

/-- Witness for C6: `Reserve` on the vector `[5]` with capacity 2, first with
`n = 1` (no-op), then with `n = 4` (grows to exactly 4). -/
theorem reserve_capacity_spec_witness :
    ((1:Nat) ≤ 2 ∧ Reserve { elems := [(5:Nat)], cap := 2 } 1 =
      { elems := [5], cap := 2 }) ∧
    ((2:Nat) < 4 ∧ (Reserve { elems := [(5:Nat)], cap := 2 } 4).cap = 4 ∧
      (Reserve { elems := [(5:Nat)], cap := 2 } 4).elems = [5]) :=
  ⟨⟨by decide, (reserve_capacity_spec Nat { elems := [5], cap := 2 } 1).1 (by decide)⟩,
   ⟨by decide, (reserve_capacity_spec Nat { elems := [5], cap := 2 } 4).2 (by decide)⟩⟩

/-- C7: when `size_ == Capacity()`, both `PushBack` and `EmplaceBack` grow the
capacity to `max(1, 2 * Capacity())`; pushing 1..5 one at a time into a
default-constructed vector produces the capacity sequence 0, 1, 2, 4, 4, 8. -/
theorem pushback_doubles_capacity (α : Type) (v : Vec α) (x : α)
    (h : v.elems.length = v.cap) :
    (PushBack v x).cap = max 1 (2 * v.cap) ∧
    (EmplaceBack v x).1.cap = max 1 (2 * v.cap) ∧
    pushCaps = [0, 1, 2, 4, 4, 8] := by
  refine ⟨?_, ?_, by decide⟩
  · unfold PushBack
    rw [if_pos h.symm]
    show growCap v.elems.length = max 1 (2 * v.cap)
    rw [h]
    unfold growCap
    split <;> omega
  · unfold EmplaceBack
    rw [if_pos h.symm]
    show growCap v.elems.length = max 1 (2 * v.cap)
    rw [h]
    unfold growCap
    split <;> omega

/-- Witness for C7: pushing onto the full one-element vector `[1]` doubles the
capacity to 2. -/
theorem pushback_doubles_capacity_witness :
    vOneOne.elems.length = vOneOne.cap ∧
    ((PushBack vOneOne 9).cap = max 1 (2 * vOneOne.cap) ∧
      (EmplaceBack vOneOne 9).1.cap = max 1 (2 * vOneOne.cap) ∧
      pushCaps = [0, 1, 2, 4, 4, 8]) :=
  ⟨by decide, pushback_doubles_capacity Nat vOneOne 9 (by decide)⟩

/-- `PopBack` on a non-empty vector written as `l ++ (m ++ [a])` drops the
last element. -/
theorem popBack_concat (l m : List α) (a : α) (c : Nat) :
    PopBack { elems := l ++ m ++ [a], cap := c } = { elems := l ++ m, cap := c } := by
  unfold PopBack
  rw [if_neg (by simp)]
  rw [List.dropLast_concat]

/-- C8: for `index < size`, `Erase` move-assigns each element of
`[index + 1, size)` one slot left, destroys the vacated last slot, and returns
the index it was given: the result holds the old elements with exactly the one
at `index` removed, order and capacity unchanged, size one less. -/
theorem erase_closes_gap (α : Type) (v : Vec α) (index : Nat)
    (h : index < v.elems.length) :
    Erase v index =
      some ({ elems := v.elems.take index ++ v.elems.drop (index + 1),
              cap := v.cap }, index) := by
  unfold Erase stdMove
  rw [if_pos ⟨by omega, le_refl _, by omega⟩]
  have hseg : (v.elems.drop (index + 1)).take (v.elems.length - (index + 1)) =
      v.elems.drop (index + 1) :=
    List.take_of_length_le (le_of_eq (List.length_drop _ _))
  unfold writeSeg
  rw [hseg, List.length_drop]
  have h1 : index + (v.elems.length - (index + 1)) = v.elems.length - 1 := by omega
  rw [h1]
  obtain ⟨a, ha⟩ := List.length_eq_one.mp
    (show (v.elems.drop (v.elems.length - 1)).length = 1 by
      rw [List.length_drop]; omega)
  rw [ha, Option.map_some', popBack_concat]

/-- Witness for C8: erasing index 1 of `[1, 2, 3]` yields `[1, 3]` and the
returned iterator index 1. -/
theorem erase_closes_gap_witness :
    (1:Nat) < ([(1:Nat), 2, 3] : List Nat).length ∧
    Erase { elems := [(1:Nat), 2, 3], cap := 3 } 1 =
      some ({ elems := [1, 3], cap := 3 }, 1) :=
  ⟨by decide, erase_closes_gap Nat { elems := [1, 2, 3], cap := 3 } 1 (by decide)⟩

/-- C9: the public copy-assignment operator violates the lifetime discipline:
assigning the empty vector into a vector of size 1 with capacity 3 destroys
slots `[0, Capacity())`, calling the destructor on the uninitialized slots 1
and 2 — an operation the invariant forbids (only slots `[0, size)` hold live
objects). -/
theorem copy_assignment_violates_slot_invariant :
    copyAssignment { slots := [some (3:Nat), none, none], size := 1 }
      { slots := [], size := 0 } = none := by decide

/-- C10 counterexample: on the one-element vector `[5]`, `Erase(end())`
(index 1) does not produce the state `PopBack` produces: the `std::move` range
`[begin() + 2, end())` has its start past its end, which is undefined
behavior. -/
theorem erase_at_end_not_popback :
    ¬ (Erase { elems := [(5:Nat)], cap := 1 } 1 =
        some (PopBack { elems := [(5:Nat)], cap := 1 }, 1)) := by decide

/-- C10 (amended): `Erase` indeed performs no bounds assertion on `pos`, but
for every non-empty vector `Erase(end())` passes the invalid range
`[end() + 1, end())` to `std::move` — undefined behavior, not the state effect
of `PopBack`. -/
theorem erase_at_end_invalid_range (α : Type) (v : Vec α)
    (_h : 0 < v.elems.length) :
    Erase v v.elems.length = none := by
  unfold Erase stdMove
  rw [if_neg (by omega)]
  rfl

/-- Witness for C10 (amended): erasing at `end()` of the one-element vector
`[7]` hits the invalid-range undefined behavior. -/
theorem erase_at_end_invalid_range_witness :
    0 < ([(7:Nat)] : List Nat).length ∧
    Erase { elems := [(7:Nat)], cap := 1 } 1 = none :=
  ⟨by decide, erase_at_end_invalid_range Nat { elems := [7], cap := 1 } (by decide)⟩

end AdvancedVector
